import Mathlib

/-!
Verification of `src/ftdi_library/src/ftdi/ftdi_context.rs` (rust-ftdi).

The Rust source is shallowly embedded below.  Machine integers are modelled
as follows: `i32` values as `ℤ` with Rust's truncating division (`Int.tdiv`)
and remainder (`Int.tmod`); `u8`/`u16`/`u32` casts as explicit `% 256`,
`% 65536`, `% 4294967296`.  Side-effecting USB transport calls
(`libusb_*`) are modelled by passing their observable results (return codes,
descriptor fields, delivered bytes) as explicit environment arguments, so
each embedded function is a pure function of the session state and the
transport's responses.  Fallible functions return `Except FtdiError`.
-/

/-- Bitwise AND of the source's `i32` values.  Every use in this development
is on nonnegative values (masked divisors, packet counters), where i32
bitwise AND agrees with AND of the binary representations. -/
def i32_and (a b : ℤ) : ℤ := Int.ofNat (a.toNat &&& b.toNat)

/-- Bitwise OR of the source's `i32`/`u32` values, on the nonnegative range. -/
def i32_or (a b : ℤ) : ℤ := Int.ofNat (a.toNat ||| b.toNat)

/-- Left shift of the source's `i32`/`u32` values, on the nonnegative range. -/
def i32_shl (a : ℤ) (n : ℕ) : ℤ := Int.ofNat (a.toNat <<< n)

/-- Right shift of the source's `i32`/`u32` values, on the nonnegative range. -/
def i32_shr (a : ℤ) (n : ℕ) : ℤ := Int.ofNat (a.toNat >>> n)

/-- `ftdi_chip_type` enum from the crate's constants module, as used by
`ftdi_context.rs`. -/
inductive ftdi_chip_type
  | TYPE_AM
  | TYPE_BM
  | TYPE_2232C
  | TYPE_R
  | TYPE_2232H
  | TYPE_4232H
  | TYPE_232H
  | TYPE_230X
deriving DecidableEq

/-- `ftdi_module_detach_mode` enum from the crate's constants module. -/
inductive ftdi_module_detach_mode
  | AUTO_DETACH_SIO_MODULE
  | DONT_DETACH_SIO_MODULE
  | AUTO_DETACH_REATACH_SIO_MODULE
deriving DecidableEq

/-- The error enum `FtdiError` (defined in the crate's `core` module, used
throughout `ftdi_context.rs`): each variant carries a numeric code and a
message.  Messages follow the source text, with quote characters dropped. -/
inductive FtdiError
  | UsbInit (code : ℤ) (message : String)
  | UsbCommandError (code : ℤ) (message : String)
  | UsbCommonError (code : ℤ) (message : String)
deriving DecidableEq

/-- `WRITE_BUFFER_CHUNKSIZE` from the crate's constants module (not under
`src/`); its exact value is irrelevant to every claim here. -/
def WRITE_BUFFER_CHUNKSIZE : ℕ := 4096

/-- The session state `ftdi_context`: the fields of the Rust struct that the
verified operations read or write.  `usb_ctx`/`usb_dev` are `Option` raw
handles in the source; only their presence is observable, modelled as `Bool`.
The fixed-size `readbuffer` array is modelled as a byte list. -/
structure ftdi_context where
  usb_ctx : Bool
  usb_dev : Bool
  usb_read_timeout : ℤ
  usb_write_timeout : ℤ
  type : ftdi_chip_type
  baudrate : ℤ
  bitbang_enabled : Bool
  readbuffer : List ℕ
  readbuffer_offset : ℕ
  readbuffer_remaining : ℕ
  readbuffer_chunksize : ℕ
  writebuffer_chunksize : ℕ
  max_packet_size : ℤ
  interface : ℕ
  index : ℕ
  in_ep : ℤ
  out_ep : ℤ
  bitbang_mode : ℕ
  module_detach_mode : ftdi_module_detach_mode
deriving DecidableEq

/-- The `Default` impl for `ftdi_context` (readbuffer is zeroed in the
source; claims always install an explicit buffer, so it starts empty here). -/
def ftdi_context_default : ftdi_context :=
  { usb_ctx := false
    usb_dev := false
    usb_read_timeout := 5000
    usb_write_timeout := 5000
    type := ftdi_chip_type.TYPE_BM
    baudrate := -1
    bitbang_enabled := false
    readbuffer := []
    readbuffer_offset := 0
    readbuffer_remaining := 0
    readbuffer_chunksize := 0
    writebuffer_chunksize := WRITE_BUFFER_CHUNKSIZE
    max_packet_size := 0
    interface := 0
    index := 0
    in_ep := 0
    out_ep := 0
    bitbang_mode := 0
    module_detach_mode := ftdi_module_detach_mode.AUTO_DETACH_SIO_MODULE }

/-- `FRAC_CODE` table of `ftdi_context`. -/
def FRAC_CODE : List ℤ := [0, 3, 2, 4, 1, 5, 6, 7]

/-- `H_CLK` constant of `ftdi_context`. -/
def H_CLK : ℤ := 120000000

/-- `C_CLK` constant of `ftdi_context`. -/
def C_CLK : ℤ := 48000000

/-- `am_adjust_up` table local to `ftdi_to_clkbits_am`. -/
def am_adjust_up : List ℤ := [0, 0, 0, 1, 0, 3, 2, 1]

/-- `am_adjust_dn` table local to `ftdi_to_clkbits_am`. -/
def am_adjust_dn : List ℤ := [0, 0, 0, 1, 0, 1, 2, 3]

/-- One iteration of the candidate-divisor loop in `ftdi_to_clkbits_am`:
given the adjusted-down base `divisor`, the iteration counter `i` and the
requested rate, returns `(try_divisor, baud_estimate, baud_diff)`.
Note the source's second clamp tests `divisor < 16`, not `try_divisor`. -/
def ftdi_to_clkbits_am_try (divisor i baudrate : ℤ) : ℤ × ℤ × ℤ :=
  let try_divisor := divisor + i
  let try_divisor :=
    if try_divisor ≤ 8 then 8
    else if divisor < 16 then 16
    else
      let t := try_divisor + am_adjust_up.getD (i32_and try_divisor 7).toNat 0
      if t > 0x1FFF8 then 0x1FFF8 else t
  let baud_estimate := (24000000 + try_divisor.tdiv 2).tdiv try_divisor
  let baud_diff :=
    if baud_estimate < baudrate then baudrate - baud_estimate
    else baud_estimate - baudrate
  (try_divisor, baud_estimate, baud_diff)

/-- The two-candidate search loop of `ftdi_to_clkbits_am` (`while i < 2`):
the first candidate always becomes the best; the loop breaks early on an
exact match; the second candidate replaces it only on strictly smaller
deviation.  Returns `(best_divisor, best_baud)`. -/
def ftdi_to_clkbits_am_search (divisor baudrate : ℤ) : ℤ × ℤ :=
  let r0 := ftdi_to_clkbits_am_try divisor 0 baudrate
  if r0.2.2 = 0 then (r0.1, r0.2.1)
  else
    let r1 := ftdi_to_clkbits_am_try divisor 1 baudrate
    if r1.2.2 < r0.2.2 then (r1.1, r1.2.1) else (r0.1, r0.2.1)

/-- `ftdi_to_clkbits_am` up to (but not including) the two special-case
remaps of the encoded value: returns
`(best_divisor, best_baud, encoded_divisor)`. -/
def ftdi_to_clkbits_am_raw (baudrate : ℤ) : ℤ × ℤ × ℤ :=
  let divisor := (24000000 : ℤ).tdiv baudrate
  let divisor := divisor - am_adjust_dn.getD (i32_and divisor 7).toNat 0
  let best := ftdi_to_clkbits_am_search divisor baudrate
  let encoded :=
    i32_or (i32_shr best.1 3) (i32_shl (FRAC_CODE.getD (i32_and best.1 7).toNat 0) 14)
  (best.1, best.2, encoded)

/-- `ftdi_to_clkbits_am`: AM-family baud-rate-to-divisor encoding.  Returns
`(best_baud, encoded_divisor)`; encoded value `1` is remapped to `0`
(3,000,000 baud) and `0x4001` to `1` (2,000,000 baud, BM only). -/
def ftdi_to_clkbits_am (baudrate : ℤ) : ℤ × ℤ :=
  let raw := ftdi_to_clkbits_am_raw baudrate
  let encoded :=
    if raw.2.2 = 1 then 0
    else if raw.2.2 = 0x4001 then 1
    else raw.2.2
  (raw.2.1, encoded)

/-- The fractional-divisor computation of the final `else` branch of
`ftdi_to_clkbits`: `divisor = clk*16/clk_div/baudrate`, round to nearest
(ties up, decided by the low bit), then the source's clamp, which replaces
the divisor by `0x1ffff` only when it exceeds `0x20000`. -/
def ftdi_to_clkbits_frac_divisor (clk clk_div baudrate : ℤ) : ℤ :=
  let divisor := ((clk * 16).tdiv clk_div).tdiv baudrate
  let best_divisor :=
    if i32_and divisor 1 ≠ 0 then divisor.tdiv 2 + 1 else divisor.tdiv 2
  if best_divisor > 0x20000 then 0x1ffff else best_divisor

/-- `ftdi_to_clkbits`: baud-rate encoding for a given system clock and
predivisor.  Returns `(best_baud, encoded_divisor)`. -/
def ftdi_to_clkbits (baudrate clk clk_div : ℤ) : ℤ × ℤ :=
  if baudrate ≥ clk.tdiv clk_div then (clk.tdiv clk_div, 0)
  else if baudrate ≥ clk.tdiv (clk_div + clk_div.tdiv 2) then
    (clk.tdiv (clk_div + clk_div.tdiv 2), 1)
  else if baudrate ≥ clk.tdiv (2 * clk_div) then (clk.tdiv (2 * clk_div), 2)
  else
    let best_divisor := ftdi_to_clkbits_frac_divisor clk clk_div baudrate
    let bb := ((clk * 16).tdiv clk_div).tdiv best_divisor
    let best_baud := if i32_and bb 1 ≠ 0 then bb.tdiv 2 + 1 else bb.tdiv 2
    let encoded :=
      i32_or (i32_shr best_divisor 3)
        (i32_shl (FRAC_CODE.getD (i32_and best_divisor 7).toNat 0) 14)
    (best_baud, encoded)

/-- `ftdi_convert_baudrate`: selects the encoder by chip family, splits the
encoded divisor into the control transfer's value and index words.  Returns
`(best_baud, value, index)`; `best_baud = -1` for a non-positive request
(value and index keep their caller-initialised `0`). -/
def ftdi_convert_baudrate (s : ftdi_context) (baudrate : ℤ) : ℤ × ℤ × ℤ :=
  if baudrate ≤ 0 then (-1, 0, 0)
  else
    let is_h := s.type = ftdi_chip_type.TYPE_2232H ∨ s.type = ftdi_chip_type.TYPE_4232H
      ∨ s.type = ftdi_chip_type.TYPE_232H
    let be :=
      if is_h then
        if baudrate * 10 > H_CLK.tdiv 0x3fff then
          let r := ftdi_to_clkbits baudrate H_CLK 10
          (r.1, i32_or r.2 0x20000)
        else ftdi_to_clkbits baudrate C_CLK 16
      else ftdi_to_clkbits_am baudrate
    let value := i32_and be.2 0xFFFF
    let index :=
      if is_h then
        i32_or (i32_and (i32_and (i32_shr be.2 8) 0xFFFF) 0xFF00) (Int.ofNat s.index)
      else i32_and (i32_shr be.2 16) 0xFFFF
    (be.1, value, index)

/-- `ftdi_set_baudrate`: multiplies the requested rate by 4 when bitbang
mode is enabled, converts it, applies the 5 percent tolerance check with an
overflow guard, issues the control transfer (its result is the
`transfer_result` argument) and stores the (possibly multiplied) rate. -/
def ftdi_set_baudrate (s : ftdi_context) (baudrate : ℤ) (transfer_result : ℤ) :
    Except FtdiError ftdi_context :=
  if s.usb_dev = false then
    .error (.UsbInit (-2) "USB device unavailable")
  else
    let baudrate := if s.bitbang_enabled = true then baudrate * 4 else baudrate
    let conv := ftdi_convert_baudrate s baudrate
    let actual_baudrate := conv.1
    if actual_baudrate ≤ 0 then
      .error (.UsbCommonError (-1) "Silly baudrate less or equal 0.")
    else
      let compute_result :=
        if actual_baudrate < baudrate then actual_baudrate * 21 < baudrate * 20
        else baudrate * 21 < actual_baudrate * 20
      if actual_baudrate * 2 < baudrate ∨ compute_result then
        .error (.UsbCommonError (-1) "Unsupported baudrate.")
      else if transfer_result < 0 then
        .error (.UsbCommandError (-2) "Setting new baudrate failed")
      else
        .ok { s with baudrate := baudrate }

/-- `ftdi_usb_reset`: issues the SIO reset control transfer and invalidates
the internal read buffer counters. -/
def ftdi_usb_reset (s : ftdi_context) (transfer_result : ℤ) :
    Except FtdiError ftdi_context :=
  if s.usb_dev = false then
    .error (.UsbInit (-2) "USB device unavailable")
  else if transfer_result < 0 then
    .error (.UsbCommandError (-1) "FTDI reset failed")
  else
    .ok { s with readbuffer_offset := 0, readbuffer_remaining := 0 }

/-- `ftdi_tciflush`: SIO_TCIFLUSH control transfer, then invalidates the
internal read buffer counters. -/
def ftdi_tciflush (s : ftdi_context) (transfer_result : ℤ) :
    Except FtdiError ftdi_context :=
  if s.usb_dev = false then
    .error (.UsbInit (-2) "USB device unavailable")
  else if transfer_result < 0 then
    .error (.UsbCommandError (-1) "FTDI purge of RX buffer failed")
  else
    .ok { s with readbuffer_offset := 0, readbuffer_remaining := 0 }

/-- `ftdi_usb_purge_rx_buffer`: SIO_RESET_PURGE_RX control transfer, then
invalidates the internal read buffer counters. -/
def ftdi_usb_purge_rx_buffer (s : ftdi_context) (transfer_result : ℤ) :
    Except FtdiError ftdi_context :=
  if s.usb_dev = false then
    .error (.UsbInit (-2) "USB device unavailable")
  else if transfer_result < 0 then
    .error (.UsbCommandError (-1) "FTDI purge of RX buffer failed")
  else
    .ok { s with readbuffer_offset := 0, readbuffer_remaining := 0 }

/-- `ftdi_tcoflush`: SIO_TCOFLUSH control transfer.  Note: the source body
then zeroes `readbuffer_offset` and `readbuffer_remaining` exactly as the
RX flushes do (its error message even reads "FTDI purge of RX buffer
failed"), although its doc comment says it clears only the chip write
buffer. -/
def ftdi_tcoflush (s : ftdi_context) (transfer_result : ℤ) :
    Except FtdiError ftdi_context :=
  if s.usb_dev = false then
    .error (.UsbInit (-2) "USB device unavailable")
  else if transfer_result < 0 then
    .error (.UsbCommandError (-1) "FTDI purge of RX buffer failed")
  else
    .ok { s with readbuffer_offset := 0, readbuffer_remaining := 0 }

/-- Descriptor fields and transport results consumed by
`ftdi_determine_max_packet_size`. -/
structure MaxPacketSizeEnv where
  get_device_descriptor_result : ℤ
  get_config_descriptor_result : ℤ
  bNumConfigurations : ℕ
  bNumInterfaces : ℕ
  num_altsetting : ℤ
  bNumEndpoints : ℕ
  wMaxPacketSize : ℤ
deriving DecidableEq

/-- `ftdi_determine_max_packet_size`: defaults to 512 for the H families and
64 otherwise; descriptor-query failures keep the default (returning `Ok`);
otherwise the first endpoint's `wMaxPacketSize` is probed. -/
def ftdi_determine_max_packet_size (s : ftdi_context) (env : MaxPacketSizeEnv) :
    Except FtdiError ℤ :=
  if s.usb_dev = false then
    .error (.UsbInit (-2) "USB device unavailable")
  else
    let packet_size : ℤ :=
      if s.type = ftdi_chip_type.TYPE_2232H ∨ s.type = ftdi_chip_type.TYPE_4232H
        ∨ s.type = ftdi_chip_type.TYPE_232H then 512
      else 64
    if env.get_device_descriptor_result < 0 then .ok packet_size
    else if env.get_config_descriptor_result < 0 then .ok packet_size
    else if env.bNumConfigurations > 0 then
      if s.interface < env.bNumInterfaces then
        if env.num_altsetting > 0 then
          if env.bNumEndpoints > 0 then .ok env.wMaxPacketSize
          else .ok packet_size
        else .ok packet_size
      else .ok packet_size
    else .ok packet_size

/-- `EPERM` from libc. -/
def EPERM : ℤ := 1

/-- Descriptor fields and transport results consumed by
`ftdi_usb_open_dev` (including those of the nested reset,
max-packet-size probe and default baud-rate programming). -/
structure OpenDevEnv where
  open_result : ℤ
  get_device_descriptor_result : ℤ
  bcdDevice : ℕ
  iSerialNumber : ℕ
  bNumConfigurations : ℕ
  get_config_descriptor_result : ℤ
  bConfigurationValue : ℤ
  detach_result : ℤ
  get_configuration_result : ℤ
  set_configuration_result : ℤ
  reset_transfer_result : ℤ
  mps : MaxPacketSizeEnv
  baud_transfer_result : ℤ
deriving DecidableEq

/-- The chip-type guess of `ftdi_usb_open_dev`: the fixed lookup on the
descriptor's `bcdDevice` with the BM zero-serial quirk; `none` for an
unrecognized value. -/
def ftdi_chip_type_guess (bcdDevice iSerialNumber : ℕ) : Option ftdi_chip_type :=
  if bcdDevice = 0x400 ∨ (bcdDevice = 0x200 ∧ iSerialNumber = 0) then
    some ftdi_chip_type.TYPE_BM
  else if bcdDevice = 0x200 then some ftdi_chip_type.TYPE_AM
  else if bcdDevice = 0x500 then some ftdi_chip_type.TYPE_2232C
  else if bcdDevice = 0x600 then some ftdi_chip_type.TYPE_R
  else if bcdDevice = 0x700 then some ftdi_chip_type.TYPE_2232H
  else if bcdDevice = 0x800 then some ftdi_chip_type.TYPE_4232H
  else if bcdDevice = 0x900 then some ftdi_chip_type.TYPE_232H
  else if bcdDevice = 0x1000 then some ftdi_chip_type.TYPE_230X
  else none

/-- The tail of `ftdi_usb_open_dev` after the configuration handling: store
the device handle, reset, guess the chip type from `bcdDevice` (with the BM
zero-serial quirk), probe the maximum packet size and program 9600 baud. -/
def ftdi_usb_open_dev_rest (s : ftdi_context) (env : OpenDevEnv) :
    Except FtdiError ftdi_context :=
  match ftdi_usb_reset { s with usb_dev := true } env.reset_transfer_result with
  | .error e => .error e
  | .ok s2 =>
    match ftdi_chip_type_guess env.bcdDevice env.iSerialNumber with
    | none => .error (.UsbInit (-8) "ftdi_chip_type is not guessed")
    | some t =>
      match ftdi_determine_max_packet_size { s2 with type := t } env.mps with
      | .error e => .error e
      | .ok p =>
        ftdi_set_baudrate { s2 with type := t, max_packet_size := p } 9600
          env.baud_transfer_result

/-- `ftdi_usb_open_dev`: opens the given usb device into the session.  The
source compares the null pointer `cfg` against `cfg0` cast to a pointer, so
the set-configuration step runs when `bNumConfigurations > 0` and the
descriptor's configuration value is nonzero. -/
def ftdi_usb_open_dev (s : ftdi_context) (env : OpenDevEnv) :
    Except FtdiError ftdi_context :=
  if s.usb_ctx = false then
    .error (.UsbInit (-8) "ftdi context is not initialized previously")
  else if env.open_result < 0 then
    .error (.UsbInit (-4) "libusb_open() failed")
  else if env.get_device_descriptor_result < 0 then
    .error (.UsbCommandError (-9) "libusb_get_device_descriptor() failed")
  else if env.get_config_descriptor_result < 0 then
    .error (.UsbCommandError (-10) "libusb_get_config_descriptor() failed")
  else
    let detach_errno :=
      if s.module_detach_mode = ftdi_module_detach_mode.AUTO_DETACH_SIO_MODULE
        ∧ env.detach_result ≠ 0 then env.detach_result
      else if s.module_detach_mode = ftdi_module_detach_mode.AUTO_DETACH_REATACH_SIO_MODULE
        ∧ env.detach_result ≠ 0 then env.detach_result
      else 0
    if env.get_configuration_result < 0 then
      .error (.UsbInit (-12) "libusb_get_configuration() failed")
    else if env.bNumConfigurations > 0 ∧ env.bConfigurationValue ≠ 0 then
      if env.set_configuration_result < 0 then
        if detach_errno = EPERM then
          .error (.UsbCommandError (-8) "inappropriate permissions on device!")
        else
          .error (.UsbCommandError (-8) "unable to set usb configuration")
      else ftdi_usb_open_dev_rest s env
    else ftdi_usb_open_dev_rest s env

/-- `LIBUSB_TRANSFER_CANCELLED` from libusb's transfer status enum. -/
def LIBUSB_TRANSFER_CANCELLED : ℤ := 3

/-- `ftdi_read_data_callback`: the bulk-read completion path.  Arguments
are the session, whether `try_lock` on it succeeded, and the completed
transfer's `actual_length`, `status` and the `libusb_submit_transfer`
result with the prior `completed` flag.  Returns the session after the
callback, the final value of the local `actual_length` variable (the
source computes it and then drops it: it is stored nowhere), and the new
`completed` flag.  The source's per-chunk compaction `copy` calls are
commented out, so the `while` loop only advances its counter and the
session's `readbuffer` is never written; only `readbuffer_offset` moves. -/
def ftdi_read_data_callback (s : ftdi_context) (lock_acquired : Bool)
    (transfer_actual_length transfer_status submit_result completed0 : ℤ) :
    ftdi_context × ℤ × ℤ :=
  let processed :=
    if lock_acquired = false then (s, transfer_actual_length)
    else
      let packet_size := s.max_packet_size
      let actual_length := transfer_actual_length
      if actual_length > 2 then
        let num_of_chunks := actual_length.tdiv packet_size
        let chunk_remains := actual_length.tmod packet_size
        let s := { s with readbuffer_offset := (s.readbuffer_offset + 2) % 4294967296 }
        let actual_length := actual_length - 2
        if actual_length > packet_size - 2 then
          if chunk_remains > 2 then
            (s, actual_length - 2 * num_of_chunks)
          else
            (s, actual_length - (2 * (num_of_chunks - 1) + chunk_remains))
        else (s, actual_length)
      else (s, actual_length)
  let completed :=
    if transfer_status = LIBUSB_TRANSFER_CANCELLED then LIBUSB_TRANSFER_CANCELLED
    else if submit_result < 0 then 1
    else completed0
  (processed.1, processed.2, completed)

/-- Per-device data consumed by the enumeration loop of
`ftdi_usb_open_desc_index`: descriptor availability, vendor/product ids,
the `libusb_open` result and the two string descriptors. -/
structure UsbDeviceEnv where
  has_descriptor : Bool
  idVendor : ℕ
  idProduct : ℕ
  open_result : ℤ
  product_descriptor : Option String
  serial_number : Option String
deriving DecidableEq

/-- The enumeration loop of `ftdi_usb_open_desc_index`, folded over the
device list with accumulator `(usb_dev_index, index)`.  A device whose
descriptors match vendor/product, whose open succeeded and whose
description or serial fails the requested filter is skipped with
`continue`, bypassing both the `usb_dev_index` increment and the
`index` update; otherwise `usb_dev_index` is incremented when a descriptor
was read, and a positive `index` is replaced by `index - index`.  The loop
has no early exit and never assigns the session's device handle (that
assignment is commented out in the source). -/
def ftdi_usb_open_desc_index_scan (vendor product : ℕ)
    (description serial : Option String) :
    List UsbDeviceEnv → ℕ × ℕ → ℕ × ℕ
  | [], acc => acc
  | dev :: rest, (usb_dev_index, index) =>
    let desc_mismatch := description ≠ none ∧ dev.product_descriptor ≠ none
      ∧ description ≠ dev.product_descriptor
    let serial_mismatch := serial ≠ none ∧ dev.serial_number ≠ none
      ∧ serial ≠ dev.serial_number
    let continued := dev.has_descriptor = true ∧ vendor > 0 ∧ product > 0
      ∧ dev.idVendor = vendor ∧ dev.idProduct = product ∧ 0 ≤ dev.open_result
      ∧ (desc_mismatch ∨ serial_mismatch)
    if continued then
      ftdi_usb_open_desc_index_scan vendor product description serial rest
        (usb_dev_index, index)
    else
      ftdi_usb_open_desc_index_scan vendor product description serial rest
        (usb_dev_index + (if dev.has_descriptor then 1 else 0),
         if index > 0 then index - index else index)

/-- `ftdi_usb_open_desc_index`: builds the device list (`none` models a
failed `ftdi_device_list::new`), runs the enumeration loop, and returns
`Ok(self)`.  The loop's bookkeeping is observationally dead: no branch of
the source returns an error, opens a device into the session, or touches
the session at all after a successful list creation. -/
def ftdi_usb_open_desc_index (s : ftdi_context)
    (devices : Option (List UsbDeviceEnv)) (vendor product : ℕ)
    (description serial : Option String) (index : ℕ) :
    Except FtdiError ftdi_context :=
  match devices with
  | none => .error (.UsbInit (-3) "create device list failed")
  | some devs =>
    let _scan := ftdi_usb_open_desc_index_scan vendor product description serial
      devs (0, index)
    .ok s

/-- `char::to_digit` as used by Rust's `from_str_radix`. -/
def char_to_digit (c : Char) (radix : ℕ) : Option ℕ :=
  let d :=
    if '0' ≤ c ∧ c ≤ '9' then some (c.toNat - '0'.toNat)
    else if 'a' ≤ c ∧ c ≤ 'z' then some (c.toNat - 'a'.toNat + 10)
    else if 'A' ≤ c ∧ c ≤ 'Z' then some (c.toNat - 'A'.toNat + 10)
    else none
  match d with
  | some v => if v < radix then some v else none
  | none => none

/-- Digit-accumulation loop of `u16::from_str_radix`: fails on a non-digit
of the radix or on overflow past `u16::MAX`. -/
def from_str_radix_go (radix : ℕ) : List Char → ℕ → Option ℕ
  | [], acc => some acc
  | c :: cs, acc =>
    match char_to_digit c radix with
    | none => none
    | some d =>
      if acc * radix + d > 65535 then none
      else from_str_radix_go radix cs (acc * radix + d)

/-- Modelled from Rust core's `u16::from_str_radix`: an optional leading
plus sign followed by at least one digit of the radix; errors on an empty
string, a non-digit, or overflow. -/
def from_str_radix (s : List Char) (radix : ℕ) : Option ℕ :=
  match s with
  | [] => none
  | '+' :: rest => if rest = [] then none else from_str_radix_go radix rest 0
  | _ => from_str_radix_go radix s 0

/-- Rust's `str::split` on a single character, on the character list. -/
def split_char (sep : Char) : List Char → List (List Char)
  | [] => [[]]
  | c :: cs =>
    match split_char sep cs with
    | [] => [[]]
    | h :: t => if c = sep then [] :: h :: t else (c :: h) :: t

/-- Rust's `str::trim_start_matches("0x")`: strips every leading `0x`. -/
def trim_start_matches_0x : List Char → List Char
  | '0' :: 'x' :: rest => trim_start_matches_0x rest
  | l => l

/-- Rust's `str::trim_start_matches("0o")`: strips every leading `0o`. -/
def trim_start_matches_0o : List Char → List Char
  | '0' :: 'o' :: rest => trim_start_matches_0o rest
  | l => l

/-- Rust's `str::starts_with` for a literal pattern, on character lists. -/
def starts_with : List Char → List Char → Bool
  | _, [] => true
  | [], _ :: _ => false
  | c :: cs, p :: ps => c = p && starts_with cs ps

/-- The per-field loop of `parse_vendor_product_index`: fields starting
with `s` or `i` are skipped; a `0x` prefix selects hex, `0o` octal,
anything else decimal; the first field that fails to parse aborts with the
corresponding error. -/
def parse_vendor_product_items : List (List Char) → Except FtdiError (List ℕ)
  | [] => .ok []
  | item :: rest =>
    if starts_with item [ 's'] || starts_with item [ 'i'] then
      parse_vendor_product_items rest
    else if starts_with item [ '0', 'x'] then
      match from_str_radix (trim_start_matches_0x item) 16 with
      | some v => do
        let r ← parse_vendor_product_items rest
        return v :: r
      | none => .error (.UsbCommonError (-15) "HEX value parse error")
    else if starts_with item [ '0', 'o'] then
      match from_str_radix (trim_start_matches_0o item) 8 with
      | some v => do
        let r ← parse_vendor_product_items rest
        return v :: r
      | none => .error (.UsbCommonError (-16) "Octal value parse error")
    else
      match from_str_radix item 10 with
      | some v => do
        let r ← parse_vendor_product_items rest
        return v :: r
      | none => .error (.UsbCommonError (-17) "Decimal value parse error")

/-- `parse_vendor_product_index`: rejects an empty or colon-free selector,
splits on `:`, rejects fewer than 3 or more than 4 fields, then parses the
numeric fields. -/
def parse_vendor_product_index (description : String) :
    Except FtdiError (List ℕ) :=
  if description.data = [] ∨ ¬ ':' ∈ description.data then
    .error (.UsbCommonError (-11) "incorrect description format or length")
  else
    let device_name_parts := split_char ':' description.data
    let vector_size := device_name_parts.length
    if vector_size ≤ 2 then
      .error (.UsbCommonError (-12) "incorrect description format, vendor and product is minimal set")
    else if 5 ≤ vector_size then
      .error (.UsbCommonError (-14) "incorrect description format is too long")
    else
      parse_vendor_product_items device_name_parts

/-- `ftdi_read_chipid_shift`: the fixed single-bit permutation applied to
each byte of the combined chip-id word. -/
def ftdi_read_chipid_shift (value : ℕ) : ℕ :=
  ((value &&& 1) <<< 1) |||
    ((value &&& 2) <<< 5) |||
    ((value &&& 4) >>> 2) |||
    ((value &&& 8) <<< 4) |||
    ((value &&& 16) >>> 1) |||
    ((value &&& 32) >>> 1) |||
    ((value &&& 64) >>> 4) |||
    ((value &&& 128) >>> 2)

/-- The byte-swap-then-truncate expression applied to `a` and `b` in
`ftdi_read_chipid`: `(((x as u16) << 8) | ((x as u16) >> 8)) as u8`. -/
def chipid_byteswap_u8 (x : ℕ) : ℕ :=
  (((x <<< 8) % 65536) ||| (x >>> 8)) % 256

/-- The combine step of `ftdi_read_chipid`:
`a = ((a as u32) << 16 | (b as u32) & 0xFFFF) as u8`. -/
def chipid_combine (a b : ℕ) : ℕ :=
  ((a <<< 16) ||| (b &&& 0xFFFF)) % 256

/-- The per-byte permutation step of `ftdi_read_chipid`, whose result is
again truncated to `u8` by the source's `as u8` cast. -/
def chipid_permute (a : ℕ) : ℕ :=
  (ftdi_read_chipid_shift a |||
    (ftdi_read_chipid_shift (a >>> 8)) <<< 8 |||
    (ftdi_read_chipid_shift (a >>> 16)) <<< 16 |||
    (ftdi_read_chipid_shift (a >>> 24)) <<< 24) % 256

/-- `ftdi_read_chipid`: two 2-byte EEPROM control-transfer reads (results
`res1`/`res2`; `a0`/`b0` are the bytes the transport leaves in the
one-byte variables `a` and `b` — the source passes a 2-byte length for a
1-byte buffer, which the model does not reproduce), the swap/combine/
permute pipeline with its `as u8` truncations, the XOR with
`0xa5f0f7d1`, and the final `as u16` cast of the returned chip id. -/
def ftdi_read_chipid (s : ftdi_context) (res1 : ℤ) (a0 : ℕ) (res2 : ℤ) (b0 : ℕ) :
    Except FtdiError ℕ :=
  if s.usb_dev = false then
    .error (.UsbInit (-2) "USB device unavailable")
  else if res1 = 2 then
    if res2 = 2 then
      .ok ((chipid_permute
        (chipid_combine (chipid_byteswap_u8 a0) (chipid_byteswap_u8 b0))
          ^^^ 0xa5f0f7d1) % 65536)
    else .error (.UsbCommandError (-1) "read of FTDIChip-ID failed")
  else .error (.UsbCommandError (-1) "read of FTDIChip-ID failed")

deriving instance DecidableEq for Except

/-- Concrete scenarios used by the theorems below.  The raw transfer data of
claim C1: two 64-byte USB packets, each of 2 status bytes `255` followed by
62 sequential payload bytes (payload `0..61` then `62..123`). -/
def c1_packets : List ℕ :=
  [255, 255] ++ List.range 62 ++ [255, 255] ++ (List.range 62).map (fun i => 62 + i)

/-- Session for claim C1: open device, `max_packet_size = 64`, the raw
packet data in the read buffer at offset 0. -/
def c1_session : ftdi_context :=
  { ftdi_context_default with
    usb_dev := true, max_packet_size := 64, readbuffer := c1_packets }

/-- C1: for 2 packets of `max_packet_size = 64` (2 status bytes + 62
payload bytes each, `actual_length = 128`), the completion path computes
the stripped length 124 as the claim demands, but the reassembled buffer is
NOT the contiguous 124-byte payload: the compaction copies are commented
out in the source, so the buffer is returned unchanged, the second packet's
status bytes `255` remain at positions 64 and 65 — inside the delivered
window `[2, 126)` — where the claim requires payload bytes 62 and 63. -/
theorem c1_callback_leaves_status_bytes_in_buffer :
    (ftdi_read_data_callback c1_session true 128 0 0 0).2.1 = 124 ∧
    (ftdi_read_data_callback c1_session true 128 0 0 0).1.readbuffer = c1_packets ∧
    (ftdi_read_data_callback c1_session true 128 0 0 0).1.readbuffer_offset = 2 ∧
    (ftdi_read_data_callback c1_session true 128 0 0 0).1.readbuffer.getD 64 0 = 255 ∧
    (ftdi_read_data_callback c1_session true 128 0 0 0).1.readbuffer.getD 65 0 = 255 ∧
    c1_packets.getD 64 0 ≠ 62 := by decide

/-- Session for claim C2: initialised context, no device opened yet. -/
def c2_state : ftdi_context := { ftdi_context_default with usb_ctx := true }

/-- A device list for claim C2 whose only device does not match the
requested vendor/product pair. -/
def c2_devices : List UsbDeviceEnv :=
  [{ has_descriptor := true, idVendor := 0x1234, idProduct := 0x5678,
     open_result := 0, product_descriptor := none, serial_number := none }]

/-- C2: when no enumerated device satisfies the filters — an empty device
list, or a list whose only device has the wrong vendor/product — the claim
demands a not-found error, but `ftdi_usb_open_desc_index` returns success:
the source's loop has no early exit and the function unconditionally ends
in `Ok(self)`, with no device handle assigned to the session. -/
theorem c2_open_desc_index_returns_ok_without_match :
    ftdi_usb_open_desc_index c2_state (some []) 0x0403 0x6001 none none 0 =
      .ok c2_state ∧
    ftdi_usb_open_desc_index c2_state (some c2_devices) 0x0403 0x6001 none none 0 =
      .ok c2_state ∧
    c2_state.usb_dev = false := by decide

/-- Session for claim C3: open device with nonzero read-buffer counters. -/
def c3_state : ftdi_context :=
  { ftdi_context_default with
    usb_dev := true, readbuffer_offset := 5, readbuffer_remaining := 7 }

/-- C3: a successful `ftdi_tcoflush` does NOT leave `readbuffer_offset`
and `readbuffer_remaining` unchanged as the claim demands: starting from
counters (5, 7), its body zeroes both, exactly like `ftdi_tciflush` and
`ftdi_usb_purge_rx_buffer` (whose zeroing, the true part of the claim, is
exhibited alongside). -/
theorem c3_tcoflush_also_resets_read_counters :
    ftdi_tcoflush c3_state 0 =
      .ok { c3_state with readbuffer_offset := 0, readbuffer_remaining := 0 } ∧
    ftdi_tciflush c3_state 0 =
      .ok { c3_state with readbuffer_offset := 0, readbuffer_remaining := 0 } ∧
    ftdi_usb_purge_rx_buffer c3_state 0 =
      .ok { c3_state with readbuffer_offset := 0, readbuffer_remaining := 0 } ∧
    c3_state.readbuffer_offset = 5 ∧ c3_state.readbuffer_remaining = 7 := by decide

/-- C5: at requested rate 3,000,000 the AM encoder's raw computation yields
best divisor 8 with raw encoded value `(8 >> 3) | (frac_code[0] << 14) = 1`,
the encoded-value-1 → 0 special case fires, and the function returns
achievable baud 3,000,000 with encoded divisor 0. -/
theorem c5_clkbits_am_3000000 :
    ftdi_to_clkbits_am_raw 3000000 = (8, 3000000, 1) ∧
    ftdi_to_clkbits_am 3000000 = (3000000, 0) := by decide

/-- C7: the selector string `s:1027:24577:ABC123` — the `s:` format the
source documents as vendor, product and serial — does not succeed with the
serial carried as a match requirement; the parse loop treats the serial
field `ABC123` as a decimal number and fails with the decimal parse error. -/
theorem c7_parse_serial_selector_fails :
    parse_vendor_product_index "s:1027:24577:ABC123" =
      .error (.UsbCommonError (-17) "Decimal value parse error") := by decide

/-- C9 counterexample: the byte 65 (`0x41`) is a fixed point of the double
chip-id permutation although it is neither 0 nor 0xFF, refuting both
directions packaged in the claim's `iff`. -/
theorem c9_counterexample_byte_65 :
    ftdi_read_chipid_shift (ftdi_read_chipid_shift 65) = 65 ∧
    ¬ (65 = 0 ∨ 65 = 255) := by decide

/-- The 16 bytes fixed by the double application of
`ftdi_read_chipid_shift`: exactly those with bit0 = bit6, bit1 = bit2,
bit3 = bit5 and bit4 = bit7 (the cycles of the squared permutation). -/
def chipid_shift_double_fixed : List ℕ :=
  [0, 6, 40, 46, 65, 71, 105, 111, 144, 150, 184, 190, 209, 215, 249, 255]

set_option maxRecDepth 8192 in
/-- C9 amended: for every 8-bit value, double application of
`ftdi_read_chipid_shift` returns the value iff it lies in the 16-element
fixed-point set `chipid_shift_double_fixed`; 0 and 0xFF belong to it but
are not its only members. -/
theorem c9_double_shift_fixed_points (v : ℕ) (h : v < 256) :
    ftdi_read_chipid_shift (ftdi_read_chipid_shift v) = v ↔
      v ∈ chipid_shift_double_fixed := by
  have hall : ∀ w : Fin 256,
      ftdi_read_chipid_shift (ftdi_read_chipid_shift w.val) = w.val ↔
        w.val ∈ chipid_shift_double_fixed := by decide
  exact hall ⟨v, h⟩

/-- C9 witness: the amended theorem applied at the concrete byte 65. -/
theorem c9_double_shift_fixed_points_witness :
    (65 : ℕ) < 256 ∧
    (ftdi_read_chipid_shift (ftdi_read_chipid_shift 65) = 65 ↔
      (65 : ℕ) ∈ chipid_shift_double_fixed) :=
  ⟨by decide, c9_double_shift_fixed_points 65 (by decide)⟩

/-- Session for claim C4: open device with bitbang mode enabled. -/
def c4_state : ftdi_context :=
  { ftdi_context_default with usb_dev := true, bitbang_enabled := true }

/-- The session C4's `ftdi_set_baudrate` call actually produces. -/
def c4_result : ftdi_context := { c4_state with baudrate := 38400 }

/-- C4 counterexample: with bitbang mode enabled, a successful
`ftdi_set_baudrate(9600)` stores 38400 — the rate multiplied by 4 for the
divisor computation — in the session's `baudrate` field, not the requested
9600 the claim demands. -/
theorem c4_counterexample_stored_rate_not_request :
    ftdi_set_baudrate c4_state 9600 0 = .ok c4_result ∧
    c4_result.baudrate ≠ 9600 := by decide

/-- C4 amended: whenever bitbang mode is enabled and `ftdi_set_baudrate`
succeeds, the stored `baudrate` field equals 4 times the requested rate
(the source reassigns `baudrate = baudrate * 4` before converting and
stores the reassigned value). -/
theorem c4_stored_baudrate_is_quadrupled (s : ftdi_context) (rate tr : ℤ)
    (s' : ftdi_context) (hb : s.bitbang_enabled = true)
    (h : ftdi_set_baudrate s rate tr = .ok s') :
    s'.baudrate = 4 * rate := by
  unfold ftdi_set_baudrate at h
  rw [if_pos hb] at h
  split at h
  · injection h
  · dsimp only at h
    repeat' split at h
    all_goals first
      | (injection h with h; subst h; show rate * 4 = 4 * rate; omega)
      | injection h

/-- C4 witness: the amended theorem applied to the concrete bitbang session
at requested rate 9600. -/
theorem c4_stored_baudrate_is_quadrupled_witness :
    c4_state.bitbang_enabled = true ∧
    ftdi_set_baudrate c4_state 9600 0 = .ok c4_result ∧
    c4_result.baudrate = 4 * 9600 :=
  ⟨rfl, by decide,
    c4_stored_baudrate_is_quadrupled c4_state 9600 0 c4_result rfl (by decide)⟩

/-- The swap-then-truncate expression of `ftdi_read_chipid` yields 0 for
every byte: `(x as u16) >> 8` vanishes, and the `as u8` cast keeps only the
low byte of `(x as u16) << 8`, which is 0. -/
lemma chipid_byteswap_u8_eq_zero (x : ℕ) (hx : x < 256) :
    chipid_byteswap_u8 x = 0 := by
  unfold chipid_byteswap_u8
  have h1 : x >>> 8 = 0 := by
    rw [Nat.shiftRight_eq_div_pow]
    exact Nat.div_eq_of_lt (by omega)
  have h256 : (2 : ℕ) ^ 8 = 256 := by norm_num
  rw [h1, Nat.or_zero, Nat.shiftLeft_eq, h256]
  have h2 : x * 256 < 65536 := by omega
  rw [Nat.mod_eq_of_lt h2]
  exact Nat.mul_mod_left x 256

/-- C10: whenever `ftdi_read_chipid` returns `Ok(v)`, the high byte of `v`
is `0xF7`, whatever bytes the two EEPROM reads delivered: the intermediate
`as u8` casts zero the combined value, so `v` is the low 16 bits of the XOR
constant `0xA5F0F7D1`, namely `0xF7D1`. -/
theorem c10_read_chipid_high_byte (s : ftdi_context) (res1 res2 : ℤ)
    (a0 b0 v : ℕ) (ha : a0 < 256) (hb : b0 < 256)
    (h : ftdi_read_chipid s res1 a0 res2 b0 = .ok v) :
    v &&& 0xFF00 = 0xF700 := by
  unfold ftdi_read_chipid at h
  rw [chipid_byteswap_u8_eq_zero a0 ha, chipid_byteswap_u8_eq_zero b0 hb] at h
  repeat' split at h
  all_goals first
    | (injection h with h; subst h; decide)
    | injection h

/-- Session for claim C10: an open device. -/
def c10_state : ftdi_context := { ftdi_context_default with usb_dev := true }

/-- C10 witness: the theorem applied to a session whose EEPROM reads
deliver bytes `0xAB` and `0xCD`; the returned chip id is `0xF7D1`. -/
theorem c10_read_chipid_high_byte_witness :
    (0xAB : ℕ) < 256 ∧ (0xCD : ℕ) < 256 ∧
    ftdi_read_chipid c10_state 2 0xAB 2 0xCD = .ok 0xF7D1 ∧
    (0xF7D1 : ℕ) &&& 0xFF00 = 0xF700 :=
  ⟨by decide, by decide, by decide,
    c10_read_chipid_high_byte c10_state 2 2 0xAB 0xCD 0xF7D1 (by decide) (by decide)
      (by decide)⟩

/-- For the two base quantities `clk*16/clk_div` that `ftdi_convert_baudrate`
feeds into the fractional branch (48,000,000 and 192,000,000), no positive
integer rate makes the pre-rounding divisor land on 262143 or 262144 — the
only values whose rounded half is `0x20000`, the single divisor the source's
clamp fails to catch. -/
lemma clkbits_frac_base_div_ne (K : ℕ) (hK : K = 48000000 ∨ K = 192000000)
    (r : ℕ) (hr : 0 < r) : K / r ≠ 262143 ∧ K / r ≠ 262144 := by
  have hd := Nat.div_add_mod K r
  have hm := Nat.mod_lt K hr
  constructor <;> intro hq <;> rw [hq] at hd <;>
    rcases hK with h | h <;> subst h <;> omega

/-- The clamped fractional divisor is at most `0x1FFFF` whenever the base
quantity `clk*16/clk_div` evaluates to one of the two values used by
`ftdi_convert_baudrate`. -/
lemma frac_divisor_le_aux (clk clk_div : ℤ) (K : ℕ)
    (hK : K = 48000000 ∨ K = 192000000)
    (hKeq : (clk * 16).tdiv clk_div = Int.ofNat K)
    (r : ℕ) (hr : 0 < r) :
    ftdi_to_clkbits_frac_divisor clk clk_div (Int.ofNat r) ≤ 0x1FFFF := by
  unfold ftdi_to_clkbits_frac_divisor
  rw [hKeq]
  have htdiv : (Int.ofNat K).tdiv (Int.ofNat r) = Int.ofNat (K / r) := rfl
  rw [htdiv]
  simp only []
  have hand : i32_and (Int.ofNat (K / r)) 1 = Int.ofNat ((K / r) % 2) := by
    show Int.ofNat ((K / r) &&& 1) = Int.ofNat ((K / r) % 2)
    rw [Nat.and_one_is_mod]
  rw [hand]
  have ht2 : (Int.ofNat (K / r)).tdiv 2 = Int.ofNat (K / r / 2) := rfl
  rw [ht2]
  have hne := clkbits_frac_base_div_ne K hK r hr
  rcases Nat.mod_two_eq_zero_or_one (K / r) with hpar | hpar <;> rw [hpar] <;>
    norm_num <;> split <;> omega

/-- C6: in `ftdi_to_clkbits` at either of its two call sites
(`clk = 120 MHz, clk_div = 10` and `clk = 48 MHz, clk_div = 16`), for every
positive rate in the fractional-divisor branch (below `clk/(2*clk_div)`),
the divisor used for the encoding after rounding-to-nearest and the clamp
is at most `0x1FFFF`. -/
theorem c6_frac_divisor_clamped (clk clk_div rate : ℤ)
    (hcall : (clk = 120000000 ∧ clk_div = 10) ∨ (clk = 48000000 ∧ clk_div = 16))
    (hrate : 0 < rate) (hbranch : rate < clk.tdiv (2 * clk_div)) :
    ftdi_to_clkbits_frac_divisor clk clk_div rate ≤ 0x1FFFF := by
  obtain ⟨r, rfl⟩ : ∃ r : ℕ, rate = Int.ofNat r :=
    ⟨rate.toNat, (Int.toNat_of_nonneg hrate.le).symm⟩
  have hr : 0 < r := Int.ofNat_pos.mp hrate
  obtain ⟨h1, h2⟩ | ⟨h1, h2⟩ := hcall <;> subst h1 <;> subst h2
  · exact frac_divisor_le_aux 120000000 10 192000000 (Or.inr rfl) (by decide) r hr
  · exact frac_divisor_le_aux 48000000 16 48000000 (Or.inl rfl) (by decide) r hr

/-- C6 witness: the theorem applied at the 48 MHz call site with requested
rate 300, which lies in the fractional branch. -/
theorem c6_frac_divisor_clamped_witness :
    (0 : ℤ) < 300 ∧ (300 : ℤ) < (48000000 : ℤ).tdiv (2 * 16) ∧
    ftdi_to_clkbits_frac_divisor 48000000 16 300 ≤ 0x1FFFF :=
  ⟨by decide, by decide,
    c6_frac_divisor_clamped 48000000 16 300 (Or.inr ⟨rfl, rfl⟩) (by decide) (by decide)⟩

/-- A successful `ftdi_usb_reset` zeroes both read-buffer counters. -/
lemma ftdi_usb_reset_zeroes (s : ftdi_context) (tr : ℤ) (s' : ftdi_context)
    (h : ftdi_usb_reset s tr = .ok s') :
    s'.readbuffer_offset = 0 ∧ s'.readbuffer_remaining = 0 := by
  unfold ftdi_usb_reset at h
  repeat' split at h
  all_goals first
    | (injection h with h; subst h; exact ⟨rfl, rfl⟩)
    | injection h

/-- `ftdi_set_baudrate` never touches the read-buffer counters: on success
they carry over from the input session. -/
lemma ftdi_set_baudrate_preserves_read_counters (s : ftdi_context)
    (rate tr : ℤ) (s' : ftdi_context)
    (h : ftdi_set_baudrate s rate tr = .ok s') :
    s'.readbuffer_offset = s.readbuffer_offset ∧
    s'.readbuffer_remaining = s.readbuffer_remaining := by
  unfold ftdi_set_baudrate at h
  split at h
  · injection h
  · dsimp only at h
    repeat' split at h
    all_goals first
      | (injection h with h; subst h; exact ⟨rfl, rfl⟩)
      | injection h

/-- After the reset inside `ftdi_usb_open_dev`, neither the chip-type
detection, nor the max-packet-size probe, nor the 9600-baud programming
modifies the read-buffer counters, so they are zero on success. -/
lemma ftdi_usb_open_dev_rest_zeroes (s : ftdi_context) (env : OpenDevEnv)
    (s' : ftdi_context) (h : ftdi_usb_open_dev_rest s env = .ok s') :
    s'.readbuffer_offset = 0 ∧ s'.readbuffer_remaining = 0 := by
  unfold ftdi_usb_open_dev_rest at h
  cases hr : ftdi_usb_reset { s with usb_dev := true } env.reset_transfer_result with
  | error e => rw [hr] at h; injection h
  | ok s2 =>
    rw [hr] at h
    dsimp only at h
    obtain ⟨h1, h2⟩ := ftdi_usb_reset_zeroes _ _ _ hr
    cases hc : ftdi_chip_type_guess env.bcdDevice env.iSerialNumber with
    | none => rw [hc] at h; injection h
    | some t =>
      rw [hc] at h
      dsimp only at h
      cases hm : ftdi_determine_max_packet_size { s2 with type := t } env.mps with
      | error e => rw [hm] at h; injection h
      | ok p =>
        rw [hm] at h
        dsimp only at h
        obtain ⟨p1, p2⟩ := ftdi_set_baudrate_preserves_read_counters _ _ _ _ h
        constructor
        · rw [p1]; exact h1
        · rw [p2]; exact h2

/-- C8: after every successful `ftdi_usb_open_dev` — whatever the prior
session state and whatever the transport and descriptors returned — the
session satisfies `readbuffer_offset = 0` and `readbuffer_remaining = 0`:
the reset zeroes them and no later step of the open sequence writes them. -/
theorem c8_open_dev_read_counters_zero (s : ftdi_context) (env : OpenDevEnv)
    (s' : ftdi_context) (h : ftdi_usb_open_dev s env = .ok s') :
    s'.readbuffer_offset = 0 ∧ s'.readbuffer_remaining = 0 := by
  unfold ftdi_usb_open_dev at h
  simp only [] at h
  repeat' split at h
  all_goals first
    | injection h
    | exact ftdi_usb_open_dev_rest_zeroes _ _ _ h

/-- Initial session for the C8 witness: transport context acquired. -/
def c8_state0 : ftdi_context := { ftdi_context_default with usb_ctx := true }

/-- Transport environment for the C8 witness: all calls succeed, a BM chip
(`bcdDevice = 0x400`) with 64-byte endpoint. -/
def c8_env : OpenDevEnv :=
  { open_result := 0
    get_device_descriptor_result := 0
    bcdDevice := 0x400
    iSerialNumber := 1
    bNumConfigurations := 1
    get_config_descriptor_result := 0
    bConfigurationValue := 1
    detach_result := 0
    get_configuration_result := 0
    set_configuration_result := 0
    reset_transfer_result := 0
    mps := { get_device_descriptor_result := 0
             get_config_descriptor_result := 0
             bNumConfigurations := 1
             bNumInterfaces := 1
             num_altsetting := 1
             bNumEndpoints := 1
             wMaxPacketSize := 64 }
    baud_transfer_result := 0 }

/-- The session the C8 witness scenario produces. -/
def c8_opened : ftdi_context :=
  { c8_state0 with usb_dev := true, max_packet_size := 64, baudrate := 9600 }

/-- C8 witness: the theorem applied to the concrete successful open. -/
theorem c8_open_dev_read_counters_zero_witness :
    ftdi_usb_open_dev c8_state0 c8_env = .ok c8_opened ∧
    c8_opened.readbuffer_offset = 0 ∧ c8_opened.readbuffer_remaining = 0 :=
  ⟨by decide,
    (c8_open_dev_read_counters_zero c8_state0 c8_env c8_opened (by decide)).1,
    (c8_open_dev_read_counters_zero c8_state0 c8_env c8_opened (by decide)).2⟩
